import Mathlib

/-!
Verification of the UDF callback type-alias fragment (`src/src/tmp.c`).

The source is a set of eight C `typedef`s for function-pointer types used
by a database server's user-defined-function (UDF) plugin ABI.  We embed
each typedef as data: a C type grammar (`CType`), a function shape
(`CFunType`), and one definition per typedef, transcribed from the source.
The spec's parameter-category table (§2 of the spec) is embedded
separately (`specTable`, `specRet`) so that the structural claims can be
stated as a comparison between the code-side shapes and the spec-side
table.
-/

/-- The C types appearing in the typedef fragment. -/
inductive CType where
  | void
  | bool
  | double
  | longlong
  | char
  | uchar
  | ulong
  | udfInit
  | udfArgs
  | ptr (t : CType)
deriving DecidableEq, Repr

open CType

/-- A C function type: parameter list (in declaration order) and return type. -/
structure CFunType where
  params : List CType
  ret : CType
deriving DecidableEq, Repr

/-- `typedef void (*Udf_func_clear)(UDF_INIT *, unsigned char *, unsigned char *);` -/
def Udf_func_clear : CFunType :=
  ⟨[ptr udfInit, ptr uchar, ptr uchar], void⟩

/-- `typedef void (*Udf_func_add)(UDF_INIT *, UDF_ARGS *, unsigned char *, unsigned char *);` -/
def Udf_func_add : CFunType :=
  ⟨[ptr udfInit, ptr udfArgs, ptr uchar, ptr uchar], void⟩

/-- `typedef void (*Udf_func_deinit)(UDF_INIT *);` -/
def Udf_func_deinit : CFunType :=
  ⟨[ptr udfInit], void⟩

/-- `typedef bool (*Udf_func_init)(UDF_INIT *, UDF_ARGS *, char *);` -/
def Udf_func_init : CFunType :=
  ⟨[ptr udfInit, ptr udfArgs, ptr char], bool⟩

/-- `typedef void (*Udf_func_any)(void);` -/
def Udf_func_any : CFunType :=
  ⟨[], void⟩

/-- `typedef double (*Udf_func_double)(UDF_INIT *, UDF_ARGS *, unsigned char *, unsigned char *);` -/
def Udf_func_double : CFunType :=
  ⟨[ptr udfInit, ptr udfArgs, ptr uchar, ptr uchar], double⟩

/-- `typedef long long (*Udf_func_longlong)(UDF_INIT *, UDF_ARGS *, unsigned char *, unsigned char *);` -/
def Udf_func_longlong : CFunType :=
  ⟨[ptr udfInit, ptr udfArgs, ptr uchar, ptr uchar], longlong⟩

/-- `typedef char *(*Udf_func_string)(UDF_INIT *, UDF_ARGS *, char *, unsigned long *, unsigned char *, unsigned char *);` -/
def Udf_func_string : CFunType :=
  ⟨[ptr udfInit, ptr udfArgs, ptr char, ptr ulong, ptr uchar, ptr uchar], ptr char⟩

/-- The eight typedef names of the fragment, as an enumeration. -/
inductive UdfAlias where
  | clear
  | add
  | deinit
  | init
  | any
  | double
  | longlong
  | string
deriving DecidableEq, Repr, Fintype

/-- The C function type each typedef of the fragment declares. -/
def sig : UdfAlias → CFunType
  | .clear => Udf_func_clear
  | .add => Udf_func_add
  | .deinit => Udf_func_deinit
  | .init => Udf_func_init
  | .any => Udf_func_any
  | .double => Udf_func_double
  | .longlong => Udf_func_longlong
  | .string => Udf_func_string

/-- The parameter categories the spec uses in its §2 table and §8
(context / args / result-buffer / null-flag / length-out / error-buffer),
plus `errorFlag` for the sixth, trailing `unsigned char *` parameter of
the string typedef, which carries the same type as the null flag but is
absent from the spec's five-category row for string. -/
inductive Cat where
  | context
  | args
  | resultBuffer
  | nullFlag
  | lengthOut
  | errorBuffer
  | errorFlag
deriving DecidableEq, Repr

/-- The return kinds the spec's §2 table distinguishes: `void`, the
boolean success/failure indicator, and a computed value. -/
inductive RetKind where
  | void
  | boolean
  | value
deriving DecidableEq, Repr

/-- The return kind of a C return type: `void` is void, `bool` is the
boolean indicator, everything else is a computed value. -/
def retKind : CType → RetKind
  | .void => .void
  | .bool => .boolean
  | _ => .value

/-- The spec's §2 table, parameter column, transcribed row by row:
clear `(context, result-buffer, null-flag)`, add
`(context, args, result-buffer, null-flag)`, deinit `(context)`, init
`(context, args, error-message-buffer)`, any `()`, and the scalar trio
`(context, args, [length-out,] result-buffer, null-flag)` where the
bracketed length-out is present only for string. -/
def specTable : UdfAlias → List Cat
  | .clear => [.context, .resultBuffer, .nullFlag]
  | .add => [.context, .args, .resultBuffer, .nullFlag]
  | .deinit => [.context]
  | .init => [.context, .args, .errorBuffer]
  | .any => []
  | .double => [.context, .args, .resultBuffer, .nullFlag]
  | .longlong => [.context, .args, .resultBuffer, .nullFlag]
  | .string => [.context, .args, .lengthOut, .resultBuffer, .nullFlag]

/-- The spec's §2 table, return column: void for clear/add/deinit/any,
boolean for init, a value for the scalar trio. -/
def specRet : UdfAlias → RetKind
  | .clear => .void
  | .add => .void
  | .deinit => .void
  | .init => .boolean
  | .any => .void
  | .double => .value
  | .longlong => .value
  | .string => .value

/-- The C type a parameter category carries in the fragment.  The result
buffer is `char *` for the string typedef and `unsigned char *` for the
others; the remaining categories have one fixed type each. -/
def typeOfCat (a : UdfAlias) : Cat → CType
  | .context => ptr udfInit
  | .args => ptr udfArgs
  | .resultBuffer => if a = .string then ptr char else ptr uchar
  | .nullFlag => ptr uchar
  | .lengthOut => ptr ulong
  | .errorBuffer => ptr char
  | .errorFlag => ptr uchar

/-- The §2 table amended only where the code forces it: identical to
`specTable` except for the string row, whose typedef declares six
parameters in the order context, args, result-buffer, length-out,
null-flag, trailing flag — with the result buffer before the length-out
and a sixth flag parameter the spec row omits. -/
def amendedTable : UdfAlias → List Cat
  | .string => [.context, .args, .resultBuffer, .lengthOut, .nullFlag, .errorFlag]
  | a => specTable a

/-- Claim C1, counterexample: the spec's §2 row for the string callback
lists five parameters, but the `Udf_func_string` typedef declares six, so
the string alias does not match the table. -/
theorem C1_counterexample :
    (specTable UdfAlias.string).length = 5 ∧
    Udf_func_string.params.length = 6 ∧
    Udf_func_string.params.length ≠ (specTable UdfAlias.string).length := by
  decide

/-- Claim C1, amended: every typedef except string matches the §2 table
in parameter count, order, category typing and return kind; the string
typedef instead has six parameters, in the order context, args,
result-buffer, length-out, null-flag, and a second trailing flag of the
same type as the null flag, and it returns a value. -/
theorem C1_amended :
    ∀ a : UdfAlias,
      (sig a).params = (amendedTable a).map (typeOfCat a) ∧
      retKind (sig a).ret = specRet a := by
  decide

/-- Claim C2, counterexample: the `Udf_func_any` typedef has an empty
parameter list, so its first parameter is not the invocation context
(`UDF_INIT *`) — it has no first parameter at all. -/
theorem C2_counterexample :
    Udf_func_any.params = [] ∧
    Udf_func_any.params.head? ≠ some (ptr udfInit) := by
  decide

/-- Claim C2, amended: every typedef of the fragment except `any`
declares the invocation context (`UDF_INIT *`) as its first parameter. -/
theorem C2_amended :
    ∀ a : UdfAlias, a ≠ .any → (sig a).params.head? = some (ptr udfInit) := by
  decide

/-- Witness for the amended claim C2, at the clear typedef. -/
theorem C2_amended_witness :
    UdfAlias.clear ≠ UdfAlias.any ∧
    (sig UdfAlias.clear).params.head? = some (ptr udfInit) :=
  ⟨by decide, C2_amended UdfAlias.clear (by decide)⟩

/-- Claim C3: among the typedefs, init is the only one whose return type
is the boolean success/failure indicator; in the spec's category table
init is the only row containing the error-message buffer, and that
category sits at the position where the typedef declares its `char *`
parameter; clear, add and deinit all return void. -/
theorem C3_init_only_error_channel :
    (∀ a : UdfAlias, (sig a).ret = CType.bool ↔ a = .init) ∧
    (∀ a : UdfAlias, Cat.errorBuffer ∈ specTable a ↔ a = .init) ∧
    (specTable .init).length = (sig .init).params.length ∧
    (sig .init).params.get? 2 = some (ptr char) ∧
    (sig .clear).ret = CType.void ∧
    (sig .add).ret = CType.void ∧
    (sig .deinit).ret = CType.void := by
  decide

/-- Claim C4: the string typedef is the only one among the eight whose
parameter list contains the length-out type `unsigned long *`. -/
theorem C4_string_only_length_out :
    ∀ a : UdfAlias, (ptr ulong ∈ (sig a).params) ↔ a = .string := by
  decide

/-- Claim C5: the `any` typedef has zero parameters and void return, and
no other typedef of the fragment has that function type. -/
theorem C5_any_structurally_distinct :
    Udf_func_any.params = [] ∧
    Udf_func_any.ret = CType.void ∧
    (∀ a : UdfAlias, sig a = Udf_func_any ↔ a = .any) := by
  decide

/-- Claim C6: the add typedef has exactly four parameters matching the
spec categories context, args, result-buffer, null-flag in that order,
and returns void. -/
theorem C6_add_shape :
    Udf_func_add.params.length = 4 ∧
    Udf_func_add.params = (specTable .add).map (typeOfCat .add) ∧
    specTable .add = [.context, .args, .resultBuffer, .nullFlag] ∧
    Udf_func_add.ret = CType.void := by
  decide

/-- Claim C7: the clear typedef has exactly three parameters matching the
spec categories context, result-buffer, null-flag in that order, and
returns void. -/
theorem C7_clear_shape :
    Udf_func_clear.params.length = 3 ∧
    Udf_func_clear.params = (specTable .clear).map (typeOfCat .clear) ∧
    specTable .clear = [.context, .resultBuffer, .nullFlag] ∧
    Udf_func_clear.ret = CType.void := by
  decide

/-- Claim C8: the deinit typedef has exactly one parameter, the context
(`UDF_INIT *`), and returns void. -/
theorem C8_deinit_shape :
    Udf_func_deinit.params = [ptr udfInit] ∧
    Udf_func_deinit.params.length = 1 ∧
    Udf_func_deinit.ret = CType.void := by
  decide

/-- Claim C9: the string typedef declares exactly six parameters, its
last two parameters are both flag out-parameters of the same pointer type
`unsigned char *`, and its return type is the pointer `char *`, not
void. -/
theorem C9_string_six_params_trailing_flags :
    Udf_func_string.params.length = 6 ∧
    Udf_func_string.params.get? 4 = some (ptr uchar) ∧
    Udf_func_string.params.get? 5 = some (ptr uchar) ∧
    Udf_func_string.params.get? 4 = Udf_func_string.params.get? 5 ∧
    Udf_func_string.ret = ptr char ∧
    Udf_func_string.ret ≠ CType.void := by
  decide

/-- Claim C10: add, double and longlong declare the identical parameter
list `(UDF_INIT *, UDF_ARGS *, unsigned char *, unsigned char *)`; double
and longlong differ from each other only in return type, and add differs
from them only by returning void. -/
theorem C10_add_double_longlong_params :
    Udf_func_add.params = Udf_func_double.params ∧
    Udf_func_double.params = Udf_func_longlong.params ∧
    Udf_func_add.params = [ptr udfInit, ptr udfArgs, ptr uchar, ptr uchar] ∧
    Udf_func_double.ret = CType.double ∧
    Udf_func_longlong.ret = CType.longlong ∧
    Udf_func_double.ret ≠ Udf_func_longlong.ret ∧
    Udf_func_add.ret = CType.void := by
  decide
